import Mathlib

/-!
# PET debug hooks (`src/debug_hooks.c`)

A shallow embedding of the crash-time debugger rendezvous facility:
the file-scope variables, the signal handler `debug_signal_handler`, and the
two entry points `pet_debug_hooks_init` and `pet_debug_hooks_cleanup`.

Modelling conventions.

* The constants of `<signal.h>` are a parameter `c : Signals`; the header is
  not part of the repository.
* Function pointers are natural numbers (addresses); the null pointer is `0`.
* The operating system side of the process is an explicit record: the table
  of signal dispositions, the process id, the text written to `stderr`, and
  an outcome oracle that says which `sigaction` calls are rejected.
* `wait_for_debugger` is `volatile`: each read is an observable event, and
  between two reads (during `sleep(1)`) an attached debugger may store a new
  value into it.
* The wait loop may run forever, so the handler takes a bound on the number
  of loop tests it may perform and reports whether it returned.
-/

namespace PetDebugHooks

/-! ## Constants of `<signal.h>` -/

/-- The constants of `<signal.h>` that the source uses.  Their values come
from the platform header and are left open; the only fact kept is that the
five signal numbers are pairwise different, as the case labels of one
`switch` must be. -/
structure Signals where
  /-- invalid memory access -/
  SIGSEGV : Int
  /-- illegal instruction -/
  SIGILL : Int
  /-- arithmetic error -/
  SIGFPE : Int
  /-- abort -/
  SIGABRT : Int
  /-- bus error -/
  SIGBUS : Int
  /-- the default disposition, as a handler pointer -/
  SIG_DFL : Nat
  /-- the ignore disposition, as a handler pointer -/
  SIG_IGN : Nat
  /-- flag bit selecting the three-argument handler -/
  SA_SIGINFO : Int
  /-- the case labels are pairwise different -/
  distinct : [SIGSEGV, SIGILL, SIGFPE, SIGABRT, SIGBUS].Nodup

/-- The intercepted fault kinds, in the order in which init installs them. -/
def K (c : Signals) : List Int := [c.SIGSEGV, c.SIGILL, c.SIGFPE, c.SIGABRT, c.SIGBUS]

/-! ## Data model -/

/-- The fields of C `struct sigaction`.  `sa_handler` and `sa_sigaction` are
kept as two fields, as the source reads them; on a platform where the two
share storage they always hold the same word. -/
structure struct_sigaction where
  sa_handler : Nat
  sa_sigaction : Nat
  sa_mask : Nat
  sa_flags : Int
deriving DecidableEq, Repr

/-- An all-zero `struct sigaction` (static storage, or after `memset`). -/
def zero_sigaction : struct_sigaction :=
  { sa_handler := 0, sa_sigaction := 0, sa_mask := 0, sa_flags := 0 }

/-- The file-scope variables of `debug_hooks.c`. -/
structure Statics where
  debug_hooks_enabled : Int
  wait_for_debugger : Int
  old_sigsegv : struct_sigaction
  old_sigill : struct_sigaction
  old_sigfpe : struct_sigaction
  old_sigabrt : struct_sigaction
  old_sigbus : struct_sigaction
deriving DecidableEq, Repr

/-- The values the variables have when the program is loaded. -/
def Statics.atLoad : Statics :=
  { debug_hooks_enabled := 0, wait_for_debugger := 1,
    old_sigsegv := zero_sigaction, old_sigill := zero_sigaction,
    old_sigfpe := zero_sigaction, old_sigabrt := zero_sigaction,
    old_sigbus := zero_sigaction }

/-- The operating-system side of the process. -/
structure Process where
  /-- current disposition of every signal number -/
  disposition : Int → struct_sigaction
  /-- whether the n-th `sigaction` call made by the process is rejected -/
  rejects : Nat → Bool
  /-- number of `sigaction` calls made so far -/
  calls : Nat
  /-- value returned by `getpid()` -/
  pid : Int
  /-- address of the function `debug_signal_handler` -/
  handler_addr : Nat
  /-- text written to the diagnostic stream, one entry per `fprintf` call -/
  stderr : List String

/-- Whole program state seen by the two entry points. -/
structure World where
  st : Statics
  os : Process

/-- Observable actions of the signal handler. -/
inductive Event where
  /-- one `fprintf(stderr, ...)` call, with the formatted text -/
  | fprintf (text : String)
  /-- a read of the volatile `wait_for_debugger`, with the value read -/
  | read_wait_for_debugger (value : Int)
  /-- a store to the volatile `wait_for_debugger` -/
  | write_wait_for_debugger (value : Int)
  /-- `sleep(seconds)` -/
  | sleep (seconds : Nat)
  /-- call through `sa_sigaction` -/
  | call_sa_sigaction (fn : Nat) (sig : Int) (info : Nat) (ucontext : Nat)
  /-- call through `sa_handler` -/
  | call_sa_handler (fn : Nat) (sig : Int)
  /-- `signal(sig, handler)` -/
  | signal (sig : Int) (handler : Nat)
  /-- `raise(sig)` -/
  | raise (sig : Int)
deriving DecidableEq, Repr

/-! ## The operating-system primitive -/

/-- The call `sigaction(signum, act, oldact)`.  `act = none` and
`oldact = none` stand for null pointers; `oldact = some b` gives the prior
content of the buffer.  Returns the new process state, the content of the
`oldact` buffer after the call, and the return code.  A rejected call changes
nothing but the call counter and returns `-1`. -/
def sigaction (os : Process) (signum : Int) (act : Option struct_sigaction)
    (oldact : Option struct_sigaction) : Process × Option struct_sigaction × Int :=
  if os.rejects os.calls then
    ({ os with calls := os.calls + 1 }, oldact, -1)
  else
    ({ os with
        calls := os.calls + 1,
        disposition := fun s =>
          if s = signum then act.getD (os.disposition signum) else os.disposition s },
     oldact.map (fun _ => os.disposition signum), 0)

/-! ## The signal handler -/

/-- Formatting of `%d`. -/
def fmt_d (n : Int) : String := toString n

/-- The `switch` that selects the name shown in the banner. -/
def signame (c : Signals) (sig : Int) : String :=
  if sig = c.SIGSEGV then "SIGSEGV"
  else if sig = c.SIGILL then "SIGILL"
  else if sig = c.SIGFPE then "SIGFPE"
  else if sig = c.SIGABRT then "SIGABRT"
  else if sig = c.SIGBUS then "SIGBUS"
  else "UNKNOWN"

/-- The thirteen `fprintf` calls that print information and instructions. -/
def banner (c : Signals) (sig : Int) (pid : Int) : List String :=
  [ "\n",
    "**********************************************************\n",
    "* PET: Caught signal " ++ fmt_d sig ++ " (" ++ signame c sig ++ ")\n",
    "* Process ID: " ++ fmt_d pid ++ "\n",
    "*\n",
    "* The process is now paused so you can attach a debugger.\n",
    "* To attach GDB: gdb -p " ++ fmt_d pid ++ "\n",
    "* Then in GDB:   set wait_for_debugger = 0\n",
    "*                continue\n",
    "*\n",
    "* To terminate without debugging, send SIGKILL:\n",
    "* kill -9 " ++ fmt_d pid ++ "\n",
    "**********************************************************\n" ]

/-- The text printed when the wait loop is left. -/
def continuing_msg : String := "Continuing after debugger attach...\n"

/-- The `switch` of the chain block: the slot holding the saved disposition
of `sig`, or `none` for the null pointer. -/
def old_handler (c : Signals) (st : Statics) (sig : Int) : Option struct_sigaction :=
  if sig = c.SIGSEGV then some st.old_sigsegv
  else if sig = c.SIGILL then some st.old_sigill
  else if sig = c.SIGFPE then some st.old_sigfpe
  else if sig = c.SIGABRT then some st.old_sigabrt
  else if sig = c.SIGBUS then some st.old_sigbus
  else none

/-- The block under the label `chain:`. -/
def chain (c : Signals) (st : Statics) (sig : Int) (info ucontext : Nat) : List Event :=
  match old_handler c st sig with
  | none => []
  | some old =>
    if old.sa_sigaction ≠ 0 then
      [Event.call_sa_sigaction old.sa_sigaction sig info ucontext]
    else if old.sa_handler ≠ 0 then
      if old.sa_handler = c.SIG_DFL then
        [Event.signal sig c.SIG_DFL, Event.raise sig]
      else if old.sa_handler ≠ c.SIG_IGN then
        [Event.call_sa_handler old.sa_handler sig]
      else []
    else []

/-- Result of running the wait loop for a bounded number of loop tests. -/
structure Parked where
  /-- value of `wait_for_debugger` when the run stops -/
  flag : Int
  /-- reads and sleeps performed -/
  trace : List Event
  /-- whether the loop was left -/
  released : Bool
deriving DecidableEq, Repr

/-- The loop `while (wait_for_debugger) sleep(1);`.  `fuel` bounds the number
of loop tests, `i` counts the sleeps already taken, `flag` is the current
content of the variable, and `debugger i` is the value an attached debugger
stores into the variable during sleep number `i`, if any. -/
def wait_loop (debugger : Nat → Option Int) : Nat → Nat → Int → Parked
  | 0, _, flag => { flag := flag, trace := [], released := false }
  | fuel + 1, i, flag =>
    if flag ≠ 0 then
      let r := wait_loop debugger fuel (i + 1) ((debugger i).getD flag)
      { r with trace := Event.read_wait_for_debugger flag :: Event.sleep 1 :: r.trace }
    else
      { flag := flag, trace := [Event.read_wait_for_debugger flag], released := true }

/-- Result of a bounded run of the handler. -/
structure Outcome where
  /-- the file-scope variables when the run stops -/
  st : Statics
  /-- everything the handler did, in order -/
  trace : List Event
  /-- whether the handler reached its end -/
  returned : Bool
deriving DecidableEq, Repr

/-- The function `debug_signal_handler(sig, info, ucontext)`, run on the
file-scope variables `st` in a process with id `pid`. -/
def debug_signal_handler (c : Signals) (st : Statics) (pid : Int)
    (debugger : Nat → Option Int) (fuel : Nat) (sig : Int) (info ucontext : Nat) : Outcome :=
  if st.debug_hooks_enabled = 0 then
    { st := st, trace := chain c st sig info ucontext, returned := true }
  else
    let announce := (banner c sig pid).map Event.fprintf
    let p := wait_loop debugger fuel 0 st.wait_for_debugger
    let st1 := { st with wait_for_debugger := p.flag }
    if p.released then
      { st := st1,
        trace := announce ++ p.trace
          ++ [Event.fprintf "Continuing after debugger attach...\n"]
          ++ chain c st1 sig info ucontext,
        returned := true }
    else
      { st := st1, trace := announce ++ p.trace, returned := false }

/-! ## The entry points -/

/-- The function `pet_debug_hooks_init()`. -/
def pet_debug_hooks_init (c : Signals) (w : World) : World :=
  let st0 := { w.st with debug_hooks_enabled := 1 }
  let sa : struct_sigaction :=
    { zero_sigaction with sa_sigaction := w.os.handler_addr, sa_flags := c.SA_SIGINFO }
  let r1 := sigaction w.os c.SIGSEGV (some sa) (some st0.old_sigsegv)
  let st1 := { st0 with old_sigsegv := r1.2.1.getD st0.old_sigsegv }
  let r2 := sigaction r1.1 c.SIGILL (some sa) (some st1.old_sigill)
  let st2 := { st1 with old_sigill := r2.2.1.getD st1.old_sigill }
  let r3 := sigaction r2.1 c.SIGFPE (some sa) (some st2.old_sigfpe)
  let st3 := { st2 with old_sigfpe := r3.2.1.getD st2.old_sigfpe }
  let r4 := sigaction r3.1 c.SIGABRT (some sa) (some st3.old_sigabrt)
  let st4 := { st3 with old_sigabrt := r4.2.1.getD st3.old_sigabrt }
  let r5 := sigaction r4.1 c.SIGBUS (some sa) (some st4.old_sigbus)
  let st5 := { st4 with old_sigbus := r5.2.1.getD st4.old_sigbus }
  { st := st5,
    os := { r5.1 with
      stderr := r5.1.stderr ++
        ["PET debug hooks initialized (PID: " ++ fmt_d r5.1.pid ++ ")\n"] } }

/-- The function `pet_debug_hooks_cleanup()`. -/
def pet_debug_hooks_cleanup (c : Signals) (w : World) : World :=
  if w.st.debug_hooks_enabled = 0 then w
  else
    let r1 := sigaction w.os c.SIGSEGV (some w.st.old_sigsegv) none
    let r2 := sigaction r1.1 c.SIGILL (some w.st.old_sigill) none
    let r3 := sigaction r2.1 c.SIGFPE (some w.st.old_sigfpe) none
    let r4 := sigaction r3.1 c.SIGABRT (some w.st.old_sigabrt) none
    let r5 := sigaction r4.1 c.SIGBUS (some w.st.old_sigbus) none
    { st := { w.st with debug_hooks_enabled := 0 }, os := r5.1 }

/-! ## Vocabulary for the statements -/

/-- The disposition the operating system holds for signal `k`. -/
def World.disposition (w : World) (k : Int) : struct_sigaction := w.os.disposition k

/-- The slot `saved[k]`: the variable `old_...` that belongs to kind `k`. -/
def World.saved (c : Signals) (w : World) (k : Int) : Option struct_sigaction :=
  old_handler c w.st k

/-- Every `sigaction` call the process makes from now on succeeds. -/
def Process.neverRejects (os : Process) : Prop := ∀ n, os.rejects n = false

/-- The `struct sigaction` that init passes to the operating system. -/
def facility_sigaction (c : Signals) (os : Process) : struct_sigaction :=
  { zero_sigaction with sa_sigaction := os.handler_addr, sa_flags := c.SA_SIGINFO }

/-- Events of the chain block: calls of a saved handler, `signal`, `raise`. -/
def Event.isChainStep : Event → Bool
  | Event.call_sa_sigaction _ _ _ _ => true
  | Event.call_sa_handler _ _ => true
  | Event.signal _ _ => true
  | Event.raise _ => true
  | _ => false

/-- Events of the wait loop: reads of the flag and sleeps. -/
def Event.isWait : Event → Bool
  | Event.read_wait_for_debugger _ => true
  | Event.sleep _ => true
  | _ => false

/-- Content of `wait_for_debugger` after `n` further sleeps, when it holds
`flag` now and `i` sleeps have been taken so far. -/
def flag_after (debugger : Nat → Option Int) (i : Nat) (flag : Int) : Nat → Int
  | 0 => flag
  | n + 1 => flag_after debugger (i + 1) ((debugger i).getD flag) n

/-- The reads and sleeps of `n` loop rounds in which the loop is not left. -/
def rounds (debugger : Nat → Option Int) (i : Nat) (flag : Int) : Nat → List Event
  | 0 => []
  | n + 1 =>
    Event.read_wait_for_debugger flag :: Event.sleep 1
      :: rounds debugger (i + 1) ((debugger i).getD flag) n

/-- One call of a handler function: its address, the signal number passed,
and the info and context pointers when they are passed. -/
structure Invocation where
  fn : Nat
  sig : Int
  pointers : Option (Nat × Nat)
deriving DecidableEq, Repr

/-- The handler call an event stands for, if it is one. -/
def Event.invocation : Event → Option Invocation
  | Event.call_sa_sigaction fn sig info ucontext =>
    some { fn := fn, sig := sig, pointers := some (info, ucontext) }
  | Event.call_sa_handler fn sig => some { fn := fn, sig := sig, pointers := none }
  | _ => none

/-- All handler calls of a trace, in order. -/
def invocations (t : List Event) : List Invocation := t.filterMap Event.invocation

/-- The record `old` holds the three-argument user handler `h`: `SA_SIGINFO`
is set and `sa_sigaction` is the non-null address `h`. -/
def records_handler3 (c : Signals) (old : struct_sigaction) (h : Nat) : Prop :=
  Int.land old.sa_flags c.SA_SIGINFO ≠ 0 ∧ old.sa_sigaction = h ∧ h ≠ 0

/-- The record `old` holds the one-argument user handler `h`: `SA_SIGINFO` is
clear and `sa_handler` is the non-null address `h`, which is neither `SIG_DFL`
nor `SIG_IGN`; the field `sa_sigaction` shows the same word when the two
fields share storage, and is null when they do not. -/
def records_handler1 (c : Signals) (old : struct_sigaction) (h : Nat) : Prop :=
  Int.land old.sa_flags c.SA_SIGINFO = 0 ∧ old.sa_handler = h ∧ h ≠ 0
    ∧ h ≠ c.SIG_DFL ∧ h ≠ c.SIG_IGN
    ∧ (old.sa_sigaction = h ∨ old.sa_sigaction = 0)

/-- The text `part` occurs in `text` as a contiguous piece. -/
def occurs_in (part text : String) : Prop := part.data <:+: text.data

/-- The banner as one text, the way it reaches the diagnostic stream. -/
def banner_text (c : Signals) (sig pid : Int) : String := String.join (banner c sig pid)

/-- The fixed table of kinds and their symbolic names. -/
def kind_names (c : Signals) : List (Int × String) :=
  [(c.SIGSEGV, "SIGSEGV"), (c.SIGILL, "SIGILL"), (c.SIGFPE, "SIGFPE"),
   (c.SIGABRT, "SIGABRT"), (c.SIGBUS, "SIGBUS")]

/-- Written from the specification (operator protocol, section 6): the lines
shown to the operator for fault code `n` named `name` in process `pid`. -/
def spec_operator_protocol (n : Int) (name : String) (pid : Int) : List String :=
  [ "* PET: Caught signal " ++ fmt_d n ++ " (" ++ name ++ ")",
    "* Process ID: " ++ fmt_d pid,
    "* The process is now paused so you can attach a debugger.",
    "* To attach GDB: gdb -p " ++ fmt_d pid,
    "* Then in GDB:   set wait_for_debugger = 0",
    "*                continue",
    "* To terminate without debugging, send SIGKILL:",
    "* kill -9 " ++ fmt_d pid ]

/-- The lines of the banner that only frame it: the leading blank line, the
rule of asterisks, and the separator. -/
def banner_frame : List String :=
  [ "\n", "**********************************************************\n", "*\n" ]

/-! ## Concrete inputs -/

/-- The values of the constants on Linux (x86-64, glibc): signal numbers
11, 4, 8, 6 and 7, `SIG_DFL` the null pointer `((__sighandler_t) 0)`,
`SIG_IGN` the pointer `((__sighandler_t) 1)`, and `SA_SIGINFO` the bit 4. -/
def linux : Signals :=
  { SIGSEGV := 11, SIGILL := 4, SIGFPE := 8, SIGABRT := 6, SIGBUS := 7,
    SIG_DFL := 0, SIG_IGN := 1, SA_SIGINFO := 4, distinct := by decide }

/-- A process in which every signal has the default disposition and no
`sigaction` call is rejected. -/
def fresh_process : Process :=
  { disposition := fun _ => zero_sigaction, rejects := fun _ => false, calls := 0,
    pid := 12345, handler_addr := 4198400, stderr := [] }

/-- The program after loading in a fresh process, all dispositions default. -/
def fresh_world : World := { st := Statics.atLoad, os := fresh_process }

/-- A one-argument user handler at address `h`, as `sigaction` reports it on
Linux, where the two handler fields share storage. -/
def user_handler1 (h : Nat) : struct_sigaction :=
  { sa_handler := h, sa_sigaction := h, sa_mask := 0, sa_flags := 0 }

/-- A three-argument user handler at address `h`, as reported on Linux. -/
def user_handler3 (h : Nat) : struct_sigaction :=
  { sa_handler := h, sa_sigaction := h, sa_mask := 0, sa_flags := 4 }

/-- The program right after loading, in a process where a one-argument
handler at address `4202496` is installed for `SIGILL` and `SIGFPE` is
ignored. -/
def sample_world : World :=
  { st := Statics.atLoad,
    os := { fresh_process with
      disposition := fun s =>
        if s = linux.SIGILL then user_handler1 4202496
        else if s = linux.SIGFPE then
          { zero_sigaction with sa_handler := linux.SIG_IGN, sa_sigaction := linux.SIG_IGN }
        else zero_sigaction } }

/-- The world `sample_world` in a process whose third `sigaction` call (the
one init makes for `SIGFPE`) is rejected. -/
def rejecting_world : World :=
  { sample_world with os := { sample_world.os with rejects := fun n => n == 2 } }

/-- The variables of an armed facility whose saved slots are all the default
disposition; `wait_for_debugger` still holds its load-time value 1. -/
def armed_statics : Statics := { Statics.atLoad with debug_hooks_enabled := 1 }

/-- A debugger that clears the flag during the second sleep. -/
def clears_in_second_sleep : Nat → Option Int := fun i => if i = 1 then some 0 else none

/-- Armed facility whose slots hold a three-argument handler for `SIGSEGV`
and a one-argument handler for `SIGILL`, with the flag already cleared. -/
def chained_statics : Statics :=
  { armed_statics with
    wait_for_debugger := 0,
    old_sigsegv := user_handler3 4206592,
    old_sigill := user_handler1 4202496 }

/-! ## Facts about the constants -/

theorem Signals.facts (c : Signals) :
    (c.SIGSEGV ≠ c.SIGILL ∧ c.SIGSEGV ≠ c.SIGFPE ∧ c.SIGSEGV ≠ c.SIGABRT
        ∧ c.SIGSEGV ≠ c.SIGBUS ∧ c.SIGILL ≠ c.SIGFPE ∧ c.SIGILL ≠ c.SIGABRT
        ∧ c.SIGILL ≠ c.SIGBUS ∧ c.SIGFPE ≠ c.SIGABRT ∧ c.SIGFPE ≠ c.SIGBUS
        ∧ c.SIGABRT ≠ c.SIGBUS)
      ∧ (c.SIGILL ≠ c.SIGSEGV ∧ c.SIGFPE ≠ c.SIGSEGV ∧ c.SIGABRT ≠ c.SIGSEGV
        ∧ c.SIGBUS ≠ c.SIGSEGV ∧ c.SIGFPE ≠ c.SIGILL ∧ c.SIGABRT ≠ c.SIGILL
        ∧ c.SIGBUS ≠ c.SIGILL ∧ c.SIGABRT ≠ c.SIGFPE ∧ c.SIGBUS ≠ c.SIGFPE
        ∧ c.SIGBUS ≠ c.SIGABRT) := by
  have h := c.distinct
  simp only [List.nodup_cons, List.mem_cons, List.mem_singleton, List.not_mem_nil, or_false,
    not_or, not_false_eq_true, List.nodup_nil, and_true] at h
  obtain ⟨⟨a1, a2, a3, a4⟩, ⟨b1, b2, b3⟩, ⟨c1, c2⟩, d1⟩ := h
  exact ⟨⟨a1, a2, a3, a4, b1, b2, b3, c1, c2, d1⟩,
    ⟨Ne.symm a1, Ne.symm a2, Ne.symm a3, Ne.symm a4, Ne.symm b1, Ne.symm b2, Ne.symm b3,
      Ne.symm c1, Ne.symm c2, Ne.symm d1⟩⟩

theorem mem_K (c : Signals) (k : Int) :
    k ∈ K c ↔ k = c.SIGSEGV ∨ k = c.SIGILL ∨ k = c.SIGFPE ∨ k = c.SIGABRT ∨ k = c.SIGBUS := by
  simp [K]

/-! ## Facts about the operating-system primitive -/

theorem sigaction_rejects (os : Process) (signum : Int) (act oldact : Option struct_sigaction) :
    (sigaction os signum act oldact).1.rejects = os.rejects := by
  unfold sigaction; split <;> rfl

theorem sigaction_calls (os : Process) (signum : Int) (act oldact : Option struct_sigaction) :
    (sigaction os signum act oldact).1.calls = os.calls + 1 := by
  unfold sigaction; split <;> rfl

theorem sigaction_handler_addr (os : Process) (signum : Int)
    (act oldact : Option struct_sigaction) :
    (sigaction os signum act oldact).1.handler_addr = os.handler_addr := by
  unfold sigaction; split <;> rfl

theorem sigaction_disposition (os : Process) (signum : Int) (sa : struct_sigaction)
    (oldact : Option struct_sigaction) (t : Int) :
    (sigaction os signum (some sa) oldact).1.disposition t
      = if os.rejects os.calls = true then os.disposition t
        else if t = signum then sa else os.disposition t := by
  unfold sigaction; split <;> simp

theorem sigaction_oldact (os : Process) (signum : Int) (act : Option struct_sigaction)
    (old : struct_sigaction) :
    (sigaction os signum act (some old)).2.1
      = if os.rejects os.calls = true then some old else some (os.disposition signum) := by
  unfold sigaction; split <;> simp

/-! ## C1: round trip -/

/-- C1. Round-trip restoration: starting UNARMED, with every `sigaction` call
succeeding, `pet_debug_hooks_init` followed by `pet_debug_hooks_cleanup`
leaves the disposition of every kind `k` in `K` equal to the disposition `d`
it had before, whatever `d` is. -/
theorem init_cleanup_round_trip (c : Signals) (w : World) (k : Int) (d : struct_sigaction)
    (hun : w.st.debug_hooks_enabled = 0) (hok : w.os.neverRejects)
    (hk : k ∈ K c) (hd : w.disposition k = d) :
    (pet_debug_hooks_cleanup c (pet_debug_hooks_init c w)).disposition k = d := by
  have _unarmed := hun
  have hr : ∀ n, w.os.rejects n = false := hok
  subst hd
  rcases (mem_K c k).1 hk with rfl | rfl | rfl | rfl | rfl <;>
    simp [pet_debug_hooks_cleanup, pet_debug_hooks_init, World.disposition,
      sigaction_disposition, sigaction_oldact, sigaction_rejects, sigaction_calls, hr,
      c.facts]

/-- Witness of C1 on `sample_world` and the pre-installed `SIGILL` handler. -/
theorem init_cleanup_round_trip_witness :
    (pet_debug_hooks_cleanup linux (pet_debug_hooks_init linux sample_world)).disposition
        linux.SIGILL
      = user_handler1 4202496 :=
  init_cleanup_round_trip linux sample_world linux.SIGILL (user_handler1 4202496) rfl
    (fun _ => rfl) (by decide) rfl

/-! ## C6: teardown when UNARMED -/

/-- C6. Idempotent teardown: when `debug_hooks_enabled` is false,
`pet_debug_hooks_cleanup` returns the state it was given (dispositions, saved
slots, `debug_hooks_enabled`, `wait_for_debugger`, everything); hence in any
state a second cleanup after a cleanup changes nothing. -/
theorem cleanup_unarmed_noop (c : Signals) :
    (∀ w : World, w.st.debug_hooks_enabled = 0 → pet_debug_hooks_cleanup c w = w)
      ∧ (∀ w : World,
          pet_debug_hooks_cleanup c (pet_debug_hooks_cleanup c w)
            = pet_debug_hooks_cleanup c w) := by
  have h1 : ∀ w : World, w.st.debug_hooks_enabled = 0 → pet_debug_hooks_cleanup c w = w := by
    intro w h
    simp [pet_debug_hooks_cleanup, h]
  refine ⟨h1, fun w => ?_⟩
  by_cases h : w.st.debug_hooks_enabled = 0
  · rw [h1 w h, h1 w h]
  · apply h1
    simp [pet_debug_hooks_cleanup, h]

/-- Witness of C6 on the program right after loading. -/
theorem cleanup_unarmed_noop_witness :
    sample_world.st.debug_hooks_enabled = 0
      ∧ pet_debug_hooks_cleanup linux sample_world = sample_world
      ∧ pet_debug_hooks_cleanup linux
            (pet_debug_hooks_cleanup linux (pet_debug_hooks_init linux sample_world))
          = pet_debug_hooks_cleanup linux (pet_debug_hooks_init linux sample_world) :=
  ⟨rfl, (cleanup_unarmed_noop linux).1 sample_world rfl,
    (cleanup_unarmed_noop linux).2 (pet_debug_hooks_init linux sample_world)⟩

/-! ## C4: init called twice -/

/-- C4 (code at the failing input). On `sample_world` (Linux constants), after
one init the slot for `SIGILL` holds the pre-installed handler; after a second
init it holds the facility's own handler instead, and the following cleanup
installs that, not the pre-installed handler, as the disposition of `SIGILL`;
the chain block for `SIGILL` then calls `debug_signal_handler` itself. -/
theorem double_init_overwrites_saved :
    (pet_debug_hooks_init linux sample_world).saved linux linux.SIGILL
        = some (user_handler1 4202496)
      ∧ (pet_debug_hooks_init linux (pet_debug_hooks_init linux sample_world)).saved linux
            linux.SIGILL
          = some (facility_sigaction linux sample_world.os)
      ∧ (pet_debug_hooks_cleanup linux
            (pet_debug_hooks_init linux (pet_debug_hooks_init linux sample_world))).disposition
            linux.SIGILL
          = facility_sigaction linux sample_world.os
      ∧ facility_sigaction linux sample_world.os ≠ user_handler1 4202496
      ∧ chain linux (pet_debug_hooks_init linux (pet_debug_hooks_init linux sample_world)).st
            linux.SIGILL 0 0
          = [Event.call_sa_sigaction sample_world.os.handler_addr linux.SIGILL 0 0] := by
  refine ⟨?_, ?_, ?_, by decide, ?_⟩ <;>
    simp [pet_debug_hooks_cleanup, pet_debug_hooks_init, World.disposition, World.saved,
      old_handler, chain, sigaction, sample_world, fresh_process, facility_sigaction, linux]

/-! ## C5: init when the operating system rejects a call -/

/-- C5 (counterexample). In `rejecting_world` the installation for `SIGFPE` is
rejected, yet on return from init the kind `SIGSEGV`, installed before the
rejection, still has the facility's handler and not its prior disposition,
and `debug_hooks_enabled` is true. -/
theorem init_rejected_not_rolled_back :
    rejecting_world.os.rejects (rejecting_world.os.calls + (K linux).indexOf linux.SIGFPE)
        = true
      ∧ (pet_debug_hooks_init linux rejecting_world).disposition linux.SIGSEGV
          = facility_sigaction linux rejecting_world.os
      ∧ (pet_debug_hooks_init linux rejecting_world).st.debug_hooks_enabled = 1
      ∧ ¬ ((pet_debug_hooks_init linux rejecting_world).disposition linux.SIGSEGV
              = rejecting_world.disposition linux.SIGSEGV
            ∨ (pet_debug_hooks_init linux rejecting_world).st.debug_hooks_enabled = 0) := by
  refine ⟨by decide, ?_, ?_, ?_⟩ <;>
    simp [pet_debug_hooks_init, World.disposition, sigaction, rejecting_world, sample_world,
      fresh_process, zero_sigaction, facility_sigaction, linux]

/-- C5 (amended). Init performs no rollback and reports nothing: on return
`debug_hooks_enabled` is 1; a kind whose `sigaction` call was accepted has the
facility's handler installed and its prior disposition in its saved slot; a
kind whose call was rejected keeps both its disposition and its saved slot
as they were. The call for kind `k` is call number `(K c).indexOf k` of init. -/
theorem init_without_rollback (c : Signals) (w : World) (k : Int) (hk : k ∈ K c) :
    (pet_debug_hooks_init c w).st.debug_hooks_enabled = 1
      ∧ (w.os.rejects (w.os.calls + (K c).indexOf k) = false →
          (pet_debug_hooks_init c w).disposition k = facility_sigaction c w.os
            ∧ (pet_debug_hooks_init c w).saved c k = some (w.disposition k))
      ∧ (w.os.rejects (w.os.calls + (K c).indexOf k) = true →
          (pet_debug_hooks_init c w).disposition k = w.disposition k
            ∧ (pet_debug_hooks_init c w).saved c k = w.saved c k) := by
  rcases (mem_K c k).1 hk with rfl | rfl | rfl | rfl | rfl
  all_goals
    refine ⟨by simp [pet_debug_hooks_init], ?_, ?_⟩ <;> intro h <;>
    simp [K, List.indexOf_cons, c.facts] at h <;>
    simp [pet_debug_hooks_init, World.disposition, World.saved, old_handler,
      sigaction_disposition, sigaction_oldact, sigaction_rejects, sigaction_calls,
      sigaction_handler_addr, facility_sigaction, c.facts, h, Nat.add_assoc]

/-- Witness of the amended C5 on `rejecting_world`: `SIGFPE`, whose call is
rejected, keeps its disposition and its saved slot. -/
theorem init_without_rollback_witness :
    (pet_debug_hooks_init linux rejecting_world).st.debug_hooks_enabled = 1
      ∧ (pet_debug_hooks_init linux rejecting_world).disposition linux.SIGFPE
          = rejecting_world.disposition linux.SIGFPE
      ∧ (pet_debug_hooks_init linux rejecting_world).saved linux linux.SIGFPE
          = rejecting_world.saved linux linux.SIGFPE :=
  ⟨(init_without_rollback linux rejecting_world linux.SIGFPE (by decide)).1,
    (init_without_rollback linux rejecting_world linux.SIGFPE (by decide)).2.2 (by decide)⟩

/-! ## The wait loop -/

theorem wait_loop_parked (debugger : Nat → Option Int) (fuel : Nat) :
    ∀ (i : Nat) (flag : Int), (∀ n, n < fuel → flag_after debugger i flag n ≠ 0) →
      wait_loop debugger fuel i flag
        = { flag := flag_after debugger i flag fuel,
            trace := rounds debugger i flag fuel, released := false } := by
  induction fuel with
  | zero => intro i flag _; rfl
  | succ fuel ih =>
    intro i flag h
    have h0 : flag ≠ 0 := h 0 (Nat.succ_pos fuel)
    have hrest : ∀ n, n < fuel →
        flag_after debugger (i + 1) ((debugger i).getD flag) n ≠ 0 :=
      fun n hn => h (n + 1) (Nat.succ_lt_succ hn)
    simp [wait_loop, h0, ih (i + 1) _ hrest, flag_after, rounds]

theorem wait_loop_released (debugger : Nat → Option Int) (n : Nat) :
    ∀ (fuel i : Nat) (flag : Int), n < fuel → flag_after debugger i flag n = 0 →
      (∀ m, m < n → flag_after debugger i flag m ≠ 0) →
      wait_loop debugger fuel i flag
        = { flag := 0,
            trace := rounds debugger i flag n ++ [Event.read_wait_for_debugger 0],
            released := true } := by
  induction n with
  | zero =>
    intro fuel i flag hf h0 _
    obtain ⟨fuel, rfl⟩ := Nat.exists_eq_succ_of_ne_zero (Nat.not_eq_zero_of_lt hf)
    have hz : flag = 0 := h0
    simp [wait_loop, hz, rounds]
  | succ n ih =>
    intro fuel i flag hf h0 hpos
    obtain ⟨fuel, rfl⟩ := Nat.exists_eq_succ_of_ne_zero (Nat.not_eq_zero_of_lt hf)
    have hne : flag ≠ 0 := hpos 0 (Nat.succ_pos n)
    have hrest : ∀ m, m < n →
        flag_after debugger (i + 1) ((debugger i).getD flag) m ≠ 0 :=
      fun m hm => hpos (m + 1) (Nat.succ_lt_succ hm)
    simp [wait_loop, hne, ih fuel (i + 1) _ (Nat.lt_of_succ_lt_succ hf) h0 hrest, rounds]

theorem rounds_nonzero (debugger : Nat → Option Int) (n : Nat) :
    ∀ (i : Nat) (flag : Int), (∀ m, m < n → flag_after debugger i flag m ≠ 0) →
      Event.read_wait_for_debugger 0 ∉ rounds debugger i flag n := by
  induction n with
  | zero => intro i flag _; simp [rounds]
  | succ n ih =>
    intro i flag hbefore
    have h0 : flag ≠ 0 := hbefore 0 (Nat.succ_pos n)
    have hne : Event.read_wait_for_debugger 0 ≠ Event.read_wait_for_debugger flag := by
      intro h; injection h with h; exact h0 h.symm
    have hrest := ih (i + 1) ((debugger i).getD flag)
      (fun m hm => hbefore (m + 1) (Nat.succ_lt_succ hm))
    simp [rounds, hne, hrest]

theorem wait_loop_isWait (debugger : Nat → Option Int) (fuel : Nat) :
    ∀ (i : Nat) (flag : Int), ∀ e ∈ (wait_loop debugger fuel i flag).trace, e.isWait = true := by
  induction fuel with
  | zero => intro i flag e he; simp [wait_loop] at he
  | succ fuel ih =>
    intro i flag e he
    by_cases h0 : flag = 0
    · simp [wait_loop, h0] at he
      subst he; rfl
    · simp only [wait_loop, ne_eq, h0, not_false_eq_true, if_true, List.mem_cons] at he
      rcases he with rfl | rfl | he
      · rfl
      · rfl
      · exact ih _ _ e he

/-- A loop that is left has just read zero; one that is not left has read
only non-zero values. -/
theorem wait_loop_reads (debugger : Nat → Option Int) (fuel : Nat) :
    ∀ (i : Nat) (flag : Int),
      ((wait_loop debugger fuel i flag).released = true ↔
        Event.read_wait_for_debugger 0 ∈ (wait_loop debugger fuel i flag).trace) := by
  induction fuel with
  | zero => intro i flag; simp [wait_loop]
  | succ fuel ih =>
    intro i flag
    by_cases h0 : flag = 0
    · simp [wait_loop, h0]
    · have hne : Event.read_wait_for_debugger 0 ≠ Event.read_wait_for_debugger flag := by
        intro h; injection h with h; exact h0 h.symm
      simp [wait_loop, h0, ih (i + 1) ((debugger i).getD flag), hne]

/-- With no debugger stores the loop leaves the flag as it found it. -/
theorem wait_loop_flag_kept (fuel : Nat) :
    ∀ (i : Nat) (flag : Int), (wait_loop (fun _ => none) fuel i flag).flag = flag := by
  induction fuel with
  | zero => intro i flag; rfl
  | succ fuel ih =>
    intro i flag
    by_cases h0 : flag = 0
    · simp [wait_loop, h0]
    · simp [wait_loop, h0, ih]

/-! ## Facts about the handler -/

theorem chain_isChainStep (c : Signals) (st : Statics) (sig : Int) (info ucontext : Nat) :
    ∀ e ∈ chain c st sig info ucontext, e.isChainStep = true := by
  intro e he
  unfold chain at he
  split at he
  · simp at he
  · split_ifs at he <;> simp at he <;> (try rcases he with rfl | rfl) <;> rfl

theorem chain_flag_irrelevant (c : Signals) (st : Statics) (v : Int) (sig : Int)
    (info ucontext : Nat) :
    chain c { st with wait_for_debugger := v } sig info ucontext
      = chain c st sig info ucontext := rfl

theorem old_handler_outside (c : Signals) (st : Statics) (sig : Int) (hout : sig ∉ K c) :
    old_handler c st sig = none := by
  simp only [K, List.mem_cons, List.mem_singleton, List.not_mem_nil, or_false, not_or] at hout
  obtain ⟨h1, h2, h3, h4, h5⟩ := hout
  simp [old_handler, h1, h2, h3, h4, h5]

theorem isWait_not_isChainStep (e : Event) (h : e.isWait = true) : e.isChainStep = false := by
  cases e <;> simp [Event.isWait] at h <;> rfl

theorem banner_ne_continuing (c : Signals) (sig pid : Int) :
    ∀ s ∈ banner c sig pid, s ≠ continuing_msg := by
  intro s hs heq
  have hc : s.data.head? = some 'C' := by rw [heq]; rfl
  simp only [banner, List.mem_cons, List.mem_singleton, List.not_mem_nil, or_false] at hs
  rcases hs with rfl | rfl | rfl | rfl | rfl | rfl | rfl | rfl | rfl | rfl | rfl | rfl | rfl <;>
    simp [String.data_append] at hc

theorem announce_not_chain (c : Signals) (sig pid : Int) :
    ∀ e ∈ (banner c sig pid).map Event.fprintf,
      e.isChainStep = false ∧ e.isWait = false ∧ e ≠ Event.fprintf continuing_msg := by
  intro e he
  obtain ⟨s, hs, rfl⟩ := List.mem_map.1 he
  refine ⟨rfl, rfl, ?_⟩
  intro h
  injection h with h
  exact banner_ne_continuing c sig pid s hs h

theorem handler_gated (c : Signals) (st : Statics) (pid : Int) (debugger : Nat → Option Int)
    (fuel : Nat) (sig : Int) (info ucontext : Nat) (hoff : st.debug_hooks_enabled = 0) :
    debug_signal_handler c st pid debugger fuel sig info ucontext
      = { st := st, trace := chain c st sig info ucontext, returned := true } := by
  simp [debug_signal_handler, hoff]

theorem handler_armed (c : Signals) (st : Statics) (pid : Int) (debugger : Nat → Option Int)
    (fuel : Nat) (sig : Int) (info ucontext : Nat) (hon : st.debug_hooks_enabled ≠ 0) :
    debug_signal_handler c st pid debugger fuel sig info ucontext
      = { st := { st with
            wait_for_debugger := (wait_loop debugger fuel 0 st.wait_for_debugger).flag },
          trace := (banner c sig pid).map Event.fprintf
            ++ (wait_loop debugger fuel 0 st.wait_for_debugger).trace
            ++ (if (wait_loop debugger fuel 0 st.wait_for_debugger).released = true then
                  Event.fprintf continuing_msg :: chain c st sig info ucontext
                else []),
          returned := (wait_loop debugger fuel 0 st.wait_for_debugger).released } := by
  unfold debug_signal_handler
  rw [if_neg hon]
  cases hrel : (wait_loop debugger fuel 0 st.wait_for_debugger).released
  · simp [hrel]
  · simp [hrel, continuing_msg, chain_flag_irrelevant]

theorem invocations_announce (lines : List String) :
    invocations (lines.map Event.fprintf) = [] := by
  induction lines with
  | nil => rfl
  | cons s rest ih =>
    simp only [invocations, List.map_cons, List.filterMap_cons, Event.invocation] at ih ⊢
    exact ih

theorem handler_flag_clear (c : Signals) (st : Statics) (pid : Int)
    (debugger : Nat → Option Int) (fuel : Nat) (sig : Int) (info ucontext : Nat)
    (hfuel : 0 < fuel) (hflag : st.wait_for_debugger = 0) :
    (debug_signal_handler c st pid debugger fuel sig info ucontext).returned = true
      ∧ invocations (debug_signal_handler c st pid debugger fuel sig info ucontext).trace
          = invocations (chain c st sig info ucontext) := by
  by_cases hoff : st.debug_hooks_enabled = 0
  · rw [handler_gated c st pid debugger fuel sig info ucontext hoff]
    exact ⟨rfl, rfl⟩
  · obtain ⟨fuel, rfl⟩ := Nat.exists_eq_succ_of_ne_zero (Nat.not_eq_zero_of_lt hfuel)
    rw [handler_armed c st pid debugger (fuel + 1) sig info ucontext hoff]
    have hloop : wait_loop debugger (fuel + 1) 0 st.wait_for_debugger
        = { flag := 0, trace := [Event.read_wait_for_debugger 0], released := true } := by
      simp [wait_loop, hflag]
    rw [hloop]
    refine ⟨rfl, ?_⟩
    have ha := invocations_announce (banner c sig pid)
    simp only [invocations] at ha ⊢
    simp [List.filterMap_append, ha, Event.invocation]

/-! ## C8: the gate -/

/-- C8. Gate: when `debug_hooks_enabled` is false, for every signal number and
every content of `wait_for_debugger`, the handler returns having done exactly
the chain step: its trace is the chain block's trace, so it prints nothing and
neither reads the flag nor sleeps; the variables are untouched; the trace does
not depend on the flag, the debugger or the loop bound; and an enabled run
that gets past the wait loop ends with this very same chain trace. -/
theorem gate_skips_to_chain (c : Signals) (st : Statics) (pid : Int)
    (debugger : Nat → Option Int) (fuel : Nat) (sig : Int) (info ucontext : Nat)
    (hoff : st.debug_hooks_enabled = 0) :
    (debug_signal_handler c st pid debugger fuel sig info ucontext).returned = true
      ∧ (debug_signal_handler c st pid debugger fuel sig info ucontext).st = st
      ∧ (debug_signal_handler c st pid debugger fuel sig info ucontext).trace
          = chain c st sig info ucontext
      ∧ (∀ text, Event.fprintf text ∉
          (debug_signal_handler c st pid debugger fuel sig info ucontext).trace)
      ∧ (∀ e ∈ (debug_signal_handler c st pid debugger fuel sig info ucontext).trace,
          e.isWait = false)
      ∧ (∀ (v : Int) (pid2 : Int) (debugger2 : Nat → Option Int) (fuel2 : Nat),
          (debug_signal_handler c { st with wait_for_debugger := v } pid2 debugger2 fuel2
              sig info ucontext).trace
            = (debug_signal_handler c st pid debugger fuel sig info ucontext).trace)
      ∧ (∀ (en v : Int) (debugger2 : Nat → Option Int) (fuel2 : Nat), en ≠ 0 →
          (debug_signal_handler c
              { st with debug_hooks_enabled := en, wait_for_debugger := v }
              pid debugger2 fuel2 sig info ucontext).returned = true →
          ∃ before, (∀ e ∈ before, e.isChainStep = false) ∧
            (debug_signal_handler c
                { st with debug_hooks_enabled := en, wait_for_debugger := v }
                pid debugger2 fuel2 sig info ucontext).trace
              = before
                ++ (debug_signal_handler c st pid debugger fuel sig info ucontext).trace) := by
  rw [handler_gated c st pid debugger fuel sig info ucontext hoff]
  refine ⟨rfl, rfl, rfl, ?_, ?_, ?_, ?_⟩
  · intro text hmem
    have := chain_isChainStep c st sig info ucontext _ hmem
    simp [Event.isChainStep] at this
  · intro e hmem
    have := chain_isChainStep c st sig info ucontext _ hmem
    cases e <;> simp [Event.isChainStep] at this <;> rfl
  · intro v pid2 debugger2 fuel2
    rw [handler_gated c { st with wait_for_debugger := v } pid2 debugger2 fuel2 sig info
      ucontext hoff]
    rfl
  · intro en v debugger2 fuel2 hen hret
    rw [handler_armed c _ pid debugger2 fuel2 sig info ucontext hen] at hret ⊢
    simp only at hret
    simp only [hret, if_true]
    refine ⟨(banner c sig pid).map Event.fprintf ++ (wait_loop debugger2 fuel2 0 v).trace
        ++ [Event.fprintf continuing_msg], ?_, ?_⟩
    · intro e he
      simp only [List.mem_append, List.mem_map, List.mem_singleton] at he
      rcases he with (⟨s, _, rfl⟩ | he) | rfl
      · rfl
      · exact isWait_not_isChainStep e (wait_loop_isWait debugger2 fuel2 0 v e he)
      · rfl
    · have hc : chain c { st with debug_hooks_enabled := en, wait_for_debugger := v }
          sig info ucontext = chain c st sig info ucontext := rfl
      simp [hc]

/-- Witness of C8: the handler run on the variables as they are at load
(facility never armed) for `SIGSEGV`. -/
theorem gate_skips_to_chain_witness :
    (debug_signal_handler linux Statics.atLoad 12345 (fun _ => none) 7 linux.SIGSEGV 0 0).trace
      = chain linux Statics.atLoad linux.SIGSEGV 0 0 :=
  (gate_skips_to_chain linux Statics.atLoad 12345 (fun _ => none) 7 linux.SIGSEGV 0 0
    rfl).2.2.1

/-! ## C9: the park -/

/-- C9. Park: with `debug_hooks_enabled` true,
(1) a run in which every read of `wait_for_debugger` returned non-zero has not
returned, has not printed the continuing message and contains no chain event;
(2) if the flag is never zero the handler does not return, whatever the bound;
(3) if the flag is zero for the first time at loop test `n`, every run with a
bound above `n` returns, and its trace is the banner, `n` rounds of non-zero
read and `sleep(1)`, the zero read, the continuing message, and the chain block;
(4) the handler never stores to `wait_for_debugger`: no store event occurs,
only the flag among the variables can differ afterwards, and without debugger
stores the variables are all unchanged. -/
theorem park_until_cleared (c : Signals) (st : Statics) (pid : Int)
    (debugger : Nat → Option Int) (sig : Int) (info ucontext : Nat)
    (hon : st.debug_hooks_enabled ≠ 0) :
    (∀ fuel,
        (∀ v, Event.read_wait_for_debugger v ∈
            (debug_signal_handler c st pid debugger fuel sig info ucontext).trace → v ≠ 0) →
        (debug_signal_handler c st pid debugger fuel sig info ucontext).returned = false
          ∧ Event.fprintf continuing_msg ∉
              (debug_signal_handler c st pid debugger fuel sig info ucontext).trace
          ∧ ∀ e ∈ (debug_signal_handler c st pid debugger fuel sig info ucontext).trace,
              e.isChainStep = false)
      ∧ ((∀ n, flag_after debugger 0 st.wait_for_debugger n ≠ 0) →
          ∀ fuel,
            (debug_signal_handler c st pid debugger fuel sig info ucontext).returned = false)
      ∧ (∀ n, flag_after debugger 0 st.wait_for_debugger n = 0 →
          (∀ m, m < n → flag_after debugger 0 st.wait_for_debugger m ≠ 0) →
          ∀ fuel, n < fuel →
            (debug_signal_handler c st pid debugger fuel sig info ucontext).returned = true
              ∧ (debug_signal_handler c st pid debugger fuel sig info ucontext).trace
                  = (banner c sig pid).map Event.fprintf
                    ++ rounds debugger 0 st.wait_for_debugger n
                    ++ [Event.read_wait_for_debugger 0, Event.fprintf continuing_msg]
                    ++ chain c st sig info ucontext
              ∧ Event.read_wait_for_debugger 0 ∉ rounds debugger 0 st.wait_for_debugger n)
      ∧ (∀ fuel v, Event.write_wait_for_debugger v ∉
          (debug_signal_handler c st pid debugger fuel sig info ucontext).trace)
      ∧ (∀ fuel, (debug_signal_handler c st pid debugger fuel sig info ucontext).st
          = { st with wait_for_debugger :=
                (debug_signal_handler c st pid debugger fuel sig info
                  ucontext).st.wait_for_debugger })
      ∧ (∀ fuel, (∀ i, debugger i = none) →
          (debug_signal_handler c st pid debugger fuel sig info ucontext).st = st) := by
  refine ⟨?_, ?_, ?_, ?_, ?_, ?_⟩
  · intro fuel hreads
    rw [handler_armed c st pid debugger fuel sig info ucontext hon] at hreads ⊢
    have hnot : (wait_loop debugger fuel 0 st.wait_for_debugger).released = false := by
      cases hrel : (wait_loop debugger fuel 0 st.wait_for_debugger).released
      · rfl
      · exfalso
        have hz := (wait_loop_reads debugger fuel 0 st.wait_for_debugger).1 hrel
        exact hreads 0 (by simp [hz]) rfl
    simp only [hnot, Bool.false_eq_true, if_false, List.append_nil, List.mem_append]
    refine ⟨trivial, ?_, ?_⟩
    · rintro (h | h)
      · exact (announce_not_chain c sig pid _ h).2.2 rfl
      · have := wait_loop_isWait debugger fuel 0 st.wait_for_debugger _ h
        simp [Event.isWait] at this
    · rintro e (h | h)
      · exact (announce_not_chain c sig pid e h).1
      · exact isWait_not_isChainStep e (wait_loop_isWait debugger fuel 0 _ e h)
  · intro hnz fuel
    rw [handler_armed c st pid debugger fuel sig info ucontext hon,
      wait_loop_parked debugger fuel 0 st.wait_for_debugger (fun n _ => hnz n)]
  · intro n hz hbefore fuel hfuel
    rw [handler_armed c st pid debugger fuel sig info ucontext hon,
      wait_loop_released debugger n fuel 0 st.wait_for_debugger hfuel hz hbefore]
    exact ⟨rfl, by simp, rounds_nonzero debugger n 0 st.wait_for_debugger hbefore⟩
  · intro fuel v hmem
    rw [handler_armed c st pid debugger fuel sig info ucontext hon] at hmem
    simp only [List.mem_append] at hmem
    rcases hmem with (h | h) | h
    · obtain ⟨s, _, hs⟩ := List.mem_map.1 h
      cases hs
    · have := wait_loop_isWait debugger fuel 0 st.wait_for_debugger _ h
      simp [Event.isWait] at this
    · split_ifs at h
      · simp only [List.mem_cons] at h
        rcases h with h | h
        · cases h
        · have := chain_isChainStep c st sig info ucontext _ h
          simp [Event.isChainStep] at this
      · simp at h
  · intro fuel
    rw [handler_armed c st pid debugger fuel sig info ucontext hon]
  · intro fuel hnone
    have hd : debugger = fun _ => none := funext hnone
    subst hd
    rw [handler_armed c st pid _ fuel sig info ucontext hon, wait_loop_flag_kept]

/-- Witness of C9: armed facility, flag 1, cleared during the second sleep;
the run with bound 5 returns after two rounds. -/
theorem park_until_cleared_witness :
    (debug_signal_handler linux armed_statics 12345 clears_in_second_sleep 5
        linux.SIGABRT 0 0).returned = true
      ∧ (debug_signal_handler linux armed_statics 12345 clears_in_second_sleep 5
          linux.SIGABRT 0 0).trace
          = (banner linux linux.SIGABRT 12345).map Event.fprintf
            ++ rounds clears_in_second_sleep 0 armed_statics.wait_for_debugger 2
            ++ [Event.read_wait_for_debugger 0, Event.fprintf continuing_msg]
            ++ chain linux armed_statics linux.SIGABRT 0 0 :=
  ⟨((park_until_cleared linux armed_statics 12345 clears_in_second_sleep linux.SIGABRT 0 0
      (by decide)).2.2.1 2 (by decide) (by decide) 5 (by decide)).1,
   ((park_until_cleared linux armed_statics 12345 clears_in_second_sleep linux.SIGABRT 0 0
      (by decide)).2.2.1 2 (by decide) (by decide) 5 (by decide)).2.1⟩

/-! ## C10: signals outside K -/

/-- C10 (counterexample). On Linux signal 2 is outside `K`; with the facility
armed and the flag left at 1 the handler does not chain immediately: the run
with bound 3 has not returned, and it has read the flag and slept. -/
theorem unknown_kind_is_parked :
    (2 : Int) ∉ K linux
      ∧ (debug_signal_handler linux armed_statics 12345 (fun _ => none) 3 2 0 0).returned
          = false
      ∧ (debug_signal_handler linux armed_statics 12345 (fun _ => none) 3 2 0 0).trace
          = (banner linux 2 12345).map Event.fprintf
            ++ [Event.read_wait_for_debugger 1, Event.sleep 1,
                Event.read_wait_for_debugger 1, Event.sleep 1,
                Event.read_wait_for_debugger 1, Event.sleep 1]
      ∧ ¬ ((debug_signal_handler linux armed_statics 12345 (fun _ => none) 3 2 0 0).returned
              = true
            ∧ ∀ e ∈ (debug_signal_handler linux armed_statics 12345 (fun _ => none) 3
                  2 0 0).trace,
                e.isWait = false) := by
  rw [handler_armed linux armed_statics 12345 (fun _ => none) 3 2 0 0 (by decide)]
  have hloop : wait_loop (fun _ => none) 3 0 armed_statics.wait_for_debugger
      = { flag := 1,
          trace := [Event.read_wait_for_debugger 1, Event.sleep 1,
            Event.read_wait_for_debugger 1, Event.sleep 1,
            Event.read_wait_for_debugger 1, Event.sleep 1],
          released := false } := by decide
  rw [hloop]
  refine ⟨by decide, rfl, by simp, ?_⟩
  rintro ⟨hret, _⟩
  exact absurd hret (by decide)

/-- C10 (amended). The five kinds of `K` are shown under their own names and
every signal number outside `K` as `UNKNOWN`. For a signal outside `K` the
chain block does nothing, and an armed handler treats it as any other signal:
it prints the banner and runs the wait loop, returning (after the continuing
message) exactly when the loop is left; so with a non-zero flag it sleeps. -/
theorem unknown_kind_banner_and_park (c : Signals) (st : Statics) (pid : Int)
    (debugger : Nat → Option Int) (fuel : Nat) (sig : Int) (info ucontext : Nat)
    (hout : sig ∉ K c) :
    signame c c.SIGSEGV = "SIGSEGV" ∧ signame c c.SIGILL = "SIGILL"
      ∧ signame c c.SIGFPE = "SIGFPE" ∧ signame c c.SIGABRT = "SIGABRT"
      ∧ signame c c.SIGBUS = "SIGBUS"
      ∧ signame c sig = "UNKNOWN"
      ∧ chain c st sig info ucontext = []
      ∧ (st.debug_hooks_enabled ≠ 0 →
          (debug_signal_handler c st pid debugger fuel sig info ucontext).returned
              = (wait_loop debugger fuel 0 st.wait_for_debugger).released
            ∧ (debug_signal_handler c st pid debugger fuel sig info ucontext).trace
                = (banner c sig pid).map Event.fprintf
                  ++ (wait_loop debugger fuel 0 st.wait_for_debugger).trace
                  ++ (if (wait_loop debugger fuel 0 st.wait_for_debugger).released = true
                      then [Event.fprintf continuing_msg] else [])
            ∧ (st.wait_for_debugger ≠ 0 → 0 < fuel →
                Event.sleep 1 ∈
                  (debug_signal_handler c st pid debugger fuel sig info ucontext).trace)) := by
  have hnone := old_handler_outside c st sig hout
  have hchain : chain c st sig info ucontext = [] := by simp [chain, hnone]
  refine ⟨by simp [signame], by simp [signame, c.facts], by simp [signame, c.facts],
    by simp [signame, c.facts], by simp [signame, c.facts], ?_, hchain, ?_⟩
  · simp only [K, List.mem_cons, List.mem_singleton, List.not_mem_nil, or_false, not_or] at hout
    obtain ⟨h1, h2, h3, h4, h5⟩ := hout
    simp [signame, h1, h2, h3, h4, h5]
  · intro hon
    rw [handler_armed c st pid debugger fuel sig info ucontext hon, hchain]
    refine ⟨rfl, rfl, ?_⟩
    intro hflag hfuel
    obtain ⟨fuel, rfl⟩ := Nat.exists_eq_succ_of_ne_zero (Nat.not_eq_zero_of_lt hfuel)
    simp [wait_loop, hflag]

/-- Witness of the amended C10 for signal 2 on the armed facility. -/
theorem unknown_kind_banner_and_park_witness :
    signame linux 2 = "UNKNOWN" ∧ chain linux armed_statics 2 0 0 = []
      ∧ Event.sleep 1 ∈
          (debug_signal_handler linux armed_statics 12345 (fun _ => none) 3 2 0 0).trace :=
  ⟨(unknown_kind_banner_and_park linux armed_statics 12345 (fun _ => none) 3 2 0 0
      (by decide)).2.2.2.2.2.1,
   (unknown_kind_banner_and_park linux armed_statics 12345 (fun _ => none) 3 2 0 0
      (by decide)).2.2.2.2.2.2.1,
   ((unknown_kind_banner_and_park linux armed_statics 12345 (fun _ => none) 3 2 0 0
      (by decide)).2.2.2.2.2.2.2 (by decide)).2.2 (by decide) (by decide)⟩

/-! ## C2: chaining to a saved user handler -/

/-- C2. Chaining fidelity: let `k` be a kind of `K` whose saved slot holds
`old`, and let the handler be invoked for `k` with `wait_for_debugger` already
0 (and a bound that allows one loop test). The handler returns, and
(1) if `old` holds the three-argument handler `h`, the trace contains exactly
one handler call: `h` with `k` and the very `info` and `ucontext` pointers;
(2) if `old` holds the one-argument handler `h`, the trace contains exactly
one handler call: `h`, with the signal number `k`. -/
theorem chain_calls_saved_handler_once (c : Signals) (st : Statics) (pid : Int)
    (debugger : Nat → Option Int) (fuel : Nat) (k : Int) (info ucontext : Nat)
    (old : struct_sigaction) (h : Nat)
    (hk : k ∈ K c) (hold : old_handler c st k = some old)
    (hfuel : 0 < fuel) (hflag : st.wait_for_debugger = 0) :
    (debug_signal_handler c st pid debugger fuel k info ucontext).returned = true
      ∧ (records_handler3 c old h →
          invocations (debug_signal_handler c st pid debugger fuel k info ucontext).trace
            = [{ fn := h, sig := k, pointers := some (info, ucontext) }])
      ∧ (records_handler1 c old h →
          (invocations (debug_signal_handler c st pid debugger fuel k info ucontext).trace).map
              (fun call => (call.fn, call.sig))
            = [(h, k)]) := by
  have _kind := hk
  obtain ⟨hret, hinv⟩ := handler_flag_clear c st pid debugger fuel k info ucontext hfuel hflag
  refine ⟨hret, ?_, ?_⟩
  · rintro ⟨_, hsa, hne⟩
    subst hsa
    rw [hinv]
    simp [chain, hold, hne, invocations, Event.invocation]
  · rintro ⟨_, hsa, h0, hdfl, hign, hover | hnull⟩
    · subst hsa
      rw [hinv]
      simp [chain, hold, h0, invocations, Event.invocation, hover]
    · subst hsa
      rw [hinv]
      simp [chain, hold, hnull, h0, hdfl, hign, invocations, Event.invocation]

/-- Witness of C2 on `chained_statics`: the three-argument handler saved for
`SIGSEGV` is called once with the pointers 77 and 99, and the one-argument
handler saved for `SIGILL` is called once with `SIGILL`. -/
theorem chain_calls_saved_handler_once_witness :
    invocations (debug_signal_handler linux chained_statics 12345 (fun _ => none) 1
        linux.SIGSEGV 77 99).trace
        = [{ fn := 4206592, sig := linux.SIGSEGV, pointers := some (77, 99) }]
      ∧ (invocations (debug_signal_handler linux chained_statics 12345 (fun _ => none) 1
            linux.SIGILL 77 99).trace).map (fun call => (call.fn, call.sig))
          = [(4202496, linux.SIGILL)] :=
  ⟨(chain_calls_saved_handler_once linux chained_statics 12345 (fun _ => none) 1
      linux.SIGSEGV 77 99 (user_handler3 4206592) 4206592 (by decide) rfl (by decide) rfl).2.1
      ⟨by decide, rfl, by decide⟩,
   (chain_calls_saved_handler_once linux chained_statics 12345 (fun _ => none) 1
      linux.SIGILL 77 99 (user_handler1 4202496) 4202496 (by decide) rfl (by decide) rfl).2.2
      ⟨by decide, rfl, by decide, by decide, by decide, Or.inl rfl⟩⟩

/-! ## C3: chaining to the default disposition -/

/-- Where `SIG_DFL` is the null pointer, the chain block never reaches
`signal` or `raise`, whatever the saved slot holds. -/
theorem chain_never_raises (c : Signals) (st : Statics) (sig : Int) (info ucontext : Nat)
    (hdfl : c.SIG_DFL = 0) :
    ∀ e ∈ chain c st sig info ucontext,
      e ≠ Event.raise sig ∧ e ≠ Event.signal sig c.SIG_DFL := by
  intro e he
  unfold chain at he
  split at he
  · simp at he
  · rename_i old _
    by_cases h1 : old.sa_sigaction = 0
    · by_cases h2 : old.sa_handler = 0
      · simp [h1, h2] at he
      · have h4 : old.sa_handler ≠ c.SIG_DFL := by rw [hdfl]; exact h2
        by_cases h3 : old.sa_handler = c.SIG_IGN
        · rw [if_neg (not_not.2 h1), if_pos h2, if_neg h4, if_neg (not_not.2 h3)] at he
          simp at he
        · rw [if_neg (not_not.2 h1), if_pos h2, if_neg h4, if_pos h3] at he
          simp at he
          subst he
          exact ⟨by simp, by simp⟩
    · simp [h1] at he
      subst he
      exact ⟨by simp, by simp⟩

/-- C3 (code at the failing input). On Linux, in a fresh process, init saves
the default disposition for `SIGSEGV` (`sa_handler = SIG_DFL`). When the
handler then runs for `SIGSEGV` with the flag cleared, it prints the banner
and the continuing message and returns: the chain block does nothing, so
neither `signal(SIGSEGV, SIG_DFL)` nor `raise(SIGSEGV)` happens. -/
theorem default_disposition_is_not_reraised :
    (pet_debug_hooks_init linux fresh_world).saved linux linux.SIGSEGV = some zero_sigaction
      ∧ zero_sigaction.sa_handler = linux.SIG_DFL
      ∧ chain linux (pet_debug_hooks_init linux fresh_world).st linux.SIGSEGV 0 0 = []
      ∧ (debug_signal_handler linux
            { (pet_debug_hooks_init linux fresh_world).st with wait_for_debugger := 0 }
            12345 (fun _ => none) 1 linux.SIGSEGV 0 0).returned = true
      ∧ (debug_signal_handler linux
            { (pet_debug_hooks_init linux fresh_world).st with wait_for_debugger := 0 }
            12345 (fun _ => none) 1 linux.SIGSEGV 0 0).trace
          = (banner linux linux.SIGSEGV 12345).map Event.fprintf
            ++ [Event.read_wait_for_debugger 0, Event.fprintf continuing_msg]
      ∧ Event.raise linux.SIGSEGV ∉
          (debug_signal_handler linux
            { (pet_debug_hooks_init linux fresh_world).st with wait_for_debugger := 0 }
            12345 (fun _ => none) 1 linux.SIGSEGV 0 0).trace := by
  have hst : (pet_debug_hooks_init linux fresh_world).st
      = { Statics.atLoad with debug_hooks_enabled := 1 } := by
    simp [pet_debug_hooks_init, fresh_world, fresh_process, sigaction, Statics.atLoad, linux]
  rw [hst]
  refine ⟨?_, rfl, by decide, by decide, ?_, ?_⟩
  · simp [World.saved, hst, old_handler, Statics.atLoad]
  · rw [handler_armed _ _ _ _ _ _ _ _ (by decide)]
    simp [wait_loop, chain, old_handler, Statics.atLoad, zero_sigaction]
  · rw [handler_armed _ _ _ _ _ _ _ _ (by decide)]
    simp [wait_loop, chain, old_handler, Statics.atLoad, zero_sigaction, banner]

/-! ## C7: the banner -/

theorem occurs_in_join (part line : String) (lines : List String) (hl : line ∈ lines)
    (h : occurs_in part line) : occurs_in part (String.join lines) := by
  unfold occurs_in at *
  rw [String.data_join]
  obtain ⟨a, b, hab⟩ := h
  obtain ⟨l1, l2, rfl⟩ := List.append_of_mem hl
  refine ⟨(l1.map String.data).flatten ++ a, b ++ (l2.map String.data).flatten, ?_⟩
  simp [← hab]

theorem signame_of_table (c : Signals) (k : Int) (name : String)
    (hk : (k, name) ∈ kind_names c) : signame c k = name ∧ k ∈ K c := by
  simp only [kind_names, List.mem_cons, List.mem_singleton, List.not_mem_nil, or_false,
    Prod.mk.injEq] at hk
  rcases hk with ⟨rfl, rfl⟩ | ⟨rfl, rfl⟩ | ⟨rfl, rfl⟩ | ⟨rfl, rfl⟩ | ⟨rfl, rfl⟩ <;>
    exact ⟨by simp [signame, c.facts], by simp [K]⟩

theorem banner_occurrences (c : Signals) (sig pid : Int) :
    occurs_in ("* PET: Caught signal " ++ fmt_d sig ++ " (" ++ signame c sig ++ ")")
        (banner_text c sig pid)
      ∧ occurs_in ("Process ID: " ++ fmt_d pid) (banner_text c sig pid)
      ∧ occurs_in ("gdb -p " ++ fmt_d pid) (banner_text c sig pid)
      ∧ occurs_in "set wait_for_debugger = 0" (banner_text c sig pid)
      ∧ occurs_in ("kill -9 " ++ fmt_d pid) (banner_text c sig pid)
      ∧ occurs_in (signame c sig) (banner_text c sig pid) := by
  refine ⟨?_, ?_, ?_, ?_, ?_, ?_⟩
  · exact occurs_in_join _
      ("* PET: Caught signal " ++ fmt_d sig ++ " (" ++ signame c sig ++ ")\n") _
      (by simp [banner])
      ⟨[], "\n".data, by simp only [String.data_append, List.append_assoc]; rfl⟩
  · exact occurs_in_join _ ("* Process ID: " ++ fmt_d pid ++ "\n") _ (by simp [banner])
      ⟨"* ".data, "\n".data, by simp only [String.data_append, List.append_assoc]; rfl⟩
  · exact occurs_in_join _ ("* To attach GDB: gdb -p " ++ fmt_d pid ++ "\n") _
      (by simp [banner])
      ⟨"* To attach GDB: ".data, "\n".data,
        by simp only [String.data_append, List.append_assoc]; rfl⟩
  · exact occurs_in_join _ "* Then in GDB:   set wait_for_debugger = 0\n" _
      (by simp [banner]) ⟨"* Then in GDB:   ".data, "\n".data, rfl⟩
  · exact occurs_in_join _ ("* kill -9 " ++ fmt_d pid ++ "\n") _ (by simp [banner])
      ⟨"* ".data, "\n".data, by simp only [String.data_append, List.append_assoc]; rfl⟩
  · exact occurs_in_join _
      ("* PET: Caught signal " ++ fmt_d sig ++ " (" ++ signame c sig ++ ")\n") _
      (by simp [banner])
      ⟨("* PET: Caught signal " ++ fmt_d sig ++ " (").data, ")\n".data,
        by simp only [String.data_append, List.append_assoc]⟩

theorem protocol_lines_terminated (c : Signals) (sig pid : Int) :
    (spec_operator_protocol sig (signame c sig) pid).map (fun l => l ++ "\n")
      = [ "* PET: Caught signal " ++ fmt_d sig ++ " (" ++ signame c sig ++ ")\n",
          "* Process ID: " ++ fmt_d pid ++ "\n",
          "* The process is now paused so you can attach a debugger.\n",
          "* To attach GDB: gdb -p " ++ fmt_d pid ++ "\n",
          "* Then in GDB:   set wait_for_debugger = 0\n",
          "*                continue\n",
          "* To terminate without debugging, send SIGKILL:\n",
          "* kill -9 " ++ fmt_d pid ++ "\n" ] := by
  simp only [spec_operator_protocol, List.map_cons, List.map_nil, String.append_assoc]
  rfl

theorem protocol_lines_in_banner (c : Signals) (sig pid : Int) :
    List.Sublist ((spec_operator_protocol sig (signame c sig) pid).map (fun l => l ++ "\n"))
      (banner c sig pid) := by
  rw [protocol_lines_terminated]
  exact .cons _ (.cons _ (.cons₂ _ (.cons₂ _ (.cons _ (.cons₂ _ (.cons₂ _ (.cons₂ _
    (.cons₂ _ (.cons _ (.cons₂ _ (.cons₂ _ (.cons _ .slnil))))))))))))

theorem banner_lines_classified (c : Signals) (sig pid : Int) :
    ∀ l ∈ banner c sig pid,
      l ∈ (spec_operator_protocol sig (signame c sig) pid).map (fun l => l ++ "\n")
        ∨ l ∈ banner_frame := by
  intro l hl
  rw [protocol_lines_terminated]
  simp only [banner, List.mem_cons, List.mem_singleton, List.not_mem_nil, or_false] at hl
  rcases hl with rfl | rfl | rfl | rfl | rfl | rfl | rfl | rfl | rfl | rfl | rfl | rfl | rfl
  · exact Or.inr (by decide)
  · exact Or.inr (by decide)
  · exact Or.inl (by simp)
  · exact Or.inl (by simp)
  · exact Or.inr (by decide)
  · exact Or.inl (by simp)
  · exact Or.inl (by simp)
  · exact Or.inl (by simp)
  · exact Or.inl (by simp)
  · exact Or.inr (by decide)
  · exact Or.inl (by simp)
  · exact Or.inl (by simp)
  · exact Or.inr (by decide)

/-- C7. Banner content: when the facility is enabled and `k` is a kind of `K`
with table name `name`, the handler first emits the banner, before any read of
the flag or sleep, and prints nothing else but the continuing message; the
banner holds the lines of the operator protocol, in order, and besides them
only framing lines (blank line, rule of asterisks, separator); its text
contains the signal line with the numeric code and the name,
`Process ID: <p>`, `gdb -p <p>`, `set wait_for_debugger = 0` (the variable the
wait loop polls) and `kill -9 <p>`. In particular on Linux the banner for
process 12345 and `SIGBUS` contains `Process ID: 12345`, `gdb -p 12345`,
`kill -9 12345` and `SIGBUS`. -/
theorem banner_content (c : Signals) (st : Statics) (p : Int) (debugger : Nat → Option Int)
    (fuel : Nat) (k : Int) (name : String) (info ucontext : Nat)
    (hon : st.debug_hooks_enabled ≠ 0) (hk : (k, name) ∈ kind_names c) :
    (∃ rest, (debug_signal_handler c st p debugger fuel k info ucontext).trace
          = (banner c k p).map Event.fprintf ++ rest
        ∧ ∀ text, Event.fprintf text ∈ rest → text = continuing_msg)
      ∧ List.Sublist ((spec_operator_protocol k name p).map (fun l => l ++ "\n"))
          (banner c k p)
      ∧ (∀ l ∈ banner c k p,
          l ∈ (spec_operator_protocol k name p).map (fun l => l ++ "\n") ∨ l ∈ banner_frame)
      ∧ occurs_in ("* PET: Caught signal " ++ fmt_d k ++ " (" ++ name ++ ")")
          (banner_text c k p)
      ∧ occurs_in ("Process ID: " ++ fmt_d p) (banner_text c k p)
      ∧ occurs_in ("gdb -p " ++ fmt_d p) (banner_text c k p)
      ∧ occurs_in "set wait_for_debugger = 0" (banner_text c k p)
      ∧ occurs_in ("kill -9 " ++ fmt_d p) (banner_text c k p)
      ∧ occurs_in "Process ID: 12345" (banner_text linux linux.SIGBUS 12345)
      ∧ occurs_in "gdb -p 12345" (banner_text linux linux.SIGBUS 12345)
      ∧ occurs_in "kill -9 12345" (banner_text linux linux.SIGBUS 12345)
      ∧ occurs_in "SIGBUS" (banner_text linux linux.SIGBUS 12345) := by
  obtain ⟨hname, _⟩ := signame_of_table c k name hk
  subst hname
  obtain ⟨h1, h2, h3, h4, h5, _⟩ := banner_occurrences c k p
  obtain ⟨_, b2, b3, _, b5, b6⟩ := banner_occurrences linux linux.SIGBUS 12345
  refine ⟨?_, protocol_lines_in_banner c k p, banner_lines_classified c k p,
    h1, h2, h3, h4, h5, b2, b3, b5, b6⟩
  rw [handler_armed c st p debugger fuel k info ucontext hon]
  refine ⟨_, List.append_assoc _ _ _, ?_⟩
  intro text hmem
  simp only [List.mem_append] at hmem
  rcases hmem with h | h
  · have := wait_loop_isWait debugger fuel 0 st.wait_for_debugger _ h
    simp [Event.isWait] at this
  · split_ifs at h
    · simp only [List.mem_cons] at h
      rcases h with h | h
      · injection h
      · have := chain_isChainStep c st k info ucontext _ h
        simp [Event.isChainStep] at this
    · simp at h

/-- Witness of C7: the armed facility on Linux, process 12345, bus error. -/
theorem banner_content_witness :
    occurs_in "* PET: Caught signal 7 (SIGBUS)" (banner_text linux linux.SIGBUS 12345)
      ∧ occurs_in "Process ID: 12345" (banner_text linux linux.SIGBUS 12345) :=
  ⟨(banner_content linux armed_statics 12345 (fun _ => none) 1 linux.SIGBUS "SIGBUS" 0 0
      (by decide) (by decide)).2.2.2.1,
   (banner_content linux armed_statics 12345 (fun _ => none) 1 linux.SIGBUS "SIGBUS" 0 0
      (by decide) (by decide)).2.2.2.2.1⟩

end PetDebugHooks
